import Mathlib

/-!
Verification development for the order-notification endpoint
(`api/send-email.js` of Profzen/medical-shop).

The JavaScript source is shallowly embedded:

* JavaScript values that can occur in a JSON request body are the
  inductive type `JSVal`.
* JavaScript numbers are modelled by `JNum`: either `NaN` or an exact
  integer.  The payloads this endpoint handles (quantities and XOF
  prices) are integer-valued, and on integers within the double's exact
  range JavaScript `+`/`*` agree with integer arithmetic, so `Int`
  plus an explicit `NaN` is a faithful carrier for everything the
  program computes.  `Number(string)` is modelled for (optionally
  signed, optionally space-padded) decimal integer numerals, `""` and
  non-numeric strings, matching JavaScript on those inputs.
* JavaScript strings are `List Char`.
* The handler is a pure function from a configuration, an SMTP
  environment (outcome of `verify` and `sendMail`), a `JSON.parse`
  oracle and a request, to a response paired with the list of observable
  effects (raw-body read, transport creation, verify, send, log lines),
  in the order the source performs them.
-/

set_option maxRecDepth 100000

namespace SendEmail

/-- JavaScript numbers as used by this endpoint: `NaN` or an exact integer. -/
inductive JNum where
  | nan
  | int (i : Int)
  deriving DecidableEq, Repr

instance : BEq JNum := ⟨fun a b => decide (a = b)⟩

/-- Addition; `NaN` is absorbing, as in JavaScript. -/
def jadd : JNum → JNum → JNum
  | JNum.int a, JNum.int b => JNum.int (a + b)
  | _, _ => JNum.nan

/-- Multiplication; `NaN` is absorbing, as in JavaScript. -/
def jmul : JNum → JNum → JNum
  | JNum.int a, JNum.int b => JNum.int (a * b)
  | _, _ => JNum.nan

/-- True exactly on non-`NaN` numbers. -/
def isIntNum : JNum → Bool
  | JNum.nan => false
  | JNum.int _ => true

/-- JavaScript/JSON values reachable from a request body. -/
inductive JSVal where
  | undef
  | null
  | bool (b : Bool)
  | num (n : JNum)
  | str (s : List Char)
  | arr (elems : List JSVal)
  | obj (fields : List (List Char × JSVal))

/-- JavaScript truthiness: `undefined`, `null`, `false`, `0`, `NaN` and `""`
are falsy; objects and arrays are always truthy. -/
def truthy : JSVal → Bool
  | JSVal.undef => false
  | JSVal.null => false
  | JSVal.bool b => b
  | JSVal.num JNum.nan => false
  | JSVal.num (JNum.int i) => !(i == 0)
  | JSVal.str s => !s.isEmpty
  | JSVal.arr _ => true
  | JSVal.obj _ => true

/-- The JavaScript `a || b` expression: `a` when truthy, else `b`. -/
def jsOr (a b : JSVal) : JSVal :=
  if truthy a then a else b

/-- First-match lookup in an object's field list; a missing key yields
`undefined`.  Objects are modelled with distinct keys. -/
def lookupProp : List (List Char × JSVal) → List Char → JSVal
  | [], _ => JSVal.undef
  | kv :: rest, k => if kv.fst = k then kv.snd else lookupProp rest k

/-- Property access `v.k`.  `none` models the `TypeError` JavaScript throws
when reading a property of `null`/`undefined`; primitives yield `undefined`
for the (non-builtin) keys this program reads. -/
def access (v : JSVal) (k : List Char) : Option JSVal :=
  match v with
  | JSVal.undef => none
  | JSVal.null => none
  | JSVal.obj fs => some (lookupProp fs k)
  | _ => some JSVal.undef

/-- Optional-chaining access `v?.k`: `undefined` instead of a throw. -/
def optAccess (v : JSVal) (k : List Char) : JSVal :=
  match access v k with
  | some x => x
  | none => JSVal.undef

/-- The `Object.keys(v).length` truthiness test used on `req.body`:
nonzero exactly for objects/arrays with entries and nonempty strings. -/
def hasKeys : JSVal → Bool
  | JSVal.obj fs => !fs.isEmpty
  | JSVal.arr l => !l.isEmpty
  | JSVal.str s => !s.isEmpty
  | _ => false

/-- Space characters trimmed by `Number(string)`. -/
def isSpaceChar (c : Char) : Bool :=
  c == ' ' || c == '\t' || c == '\n' || c == '\r'

/-- Trim spaces from both ends. -/
def trimBoth (s : List Char) : List Char :=
  ((s.dropWhile isSpaceChar).reverse.dropWhile isSpaceChar).reverse

/-- Value of a list of decimal digits. -/
def digitsVal (ds : List Char) : Nat :=
  ds.foldl (fun a c => a * 10 + (c.toNat - 48)) 0

/-- JavaScript `Number(string)` on the string shapes this endpoint meets:
empty/whitespace is `0`, an optionally signed decimal integer numeral is its
value, anything else is `NaN`. -/
def parseNum (s : List Char) : JNum :=
  match trimBoth s with
  | [] => JNum.int 0
  | '+' :: ds =>
      if !ds.isEmpty && ds.all Char.isDigit then JNum.int (Int.ofNat (digitsVal ds)) else JNum.nan
  | '-' :: ds =>
      if !ds.isEmpty && ds.all Char.isDigit then JNum.int (-(Int.ofNat (digitsVal ds))) else JNum.nan
  | ds =>
      if ds.all Char.isDigit then JNum.int (Int.ofNat (digitsVal ds)) else JNum.nan

/-- Decimal rendering of a number, as JavaScript `String(number)` produces
for `NaN` and integers. -/
def jnumToString : JNum → List Char
  | JNum.nan => ("NaN").data
  | JNum.int i =>
      if i < 0 then '-' :: Nat.toDigits 10 i.natAbs else Nat.toDigits 10 i.natAbs

mutual

/-- JavaScript `String(v)` string conversion.  Arrays render as their
comma-joined elements, as `Array.prototype.toString` does. -/
def jsToString : JSVal → List Char
  | JSVal.undef => ("undefined").data
  | JSVal.null => ("null").data
  | JSVal.bool b => if b then ("true").data else ("false").data
  | JSVal.num n => jnumToString n
  | JSVal.str s => s
  | JSVal.arr l => List.intercalate ((",").data) (arrParts l)
  | JSVal.obj _ => ("[object Object]").data

/-- Rendered array elements for `Array.prototype.join`:
`null`/`undefined` elements render empty. -/
def arrParts : List JSVal → List (List Char)
  | [] => []
  | JSVal.undef :: vs => [] :: arrParts vs
  | JSVal.null :: vs => [] :: arrParts vs
  | v :: vs => jsToString v :: arrParts vs

end

/-- JavaScript `Number(v)` numeric conversion.  Strings go through
`parseNum`; arrays coerce through their string rendering (so `Number([])`
is `0` and `Number([7])` is `7`); plain objects coerce to `NaN` via
`"[object Object]"`. -/
def jsToNumber : JSVal → JNum
  | JSVal.undef => JNum.nan
  | JSVal.null => JNum.int 0
  | JSVal.bool b => if b then JNum.int 1 else JNum.int 0
  | JSVal.num n => n
  | JSVal.str s => parseNum s
  | JSVal.arr l => parseNum (jsToString (JSVal.arr l))
  | JSVal.obj _ => JNum.nan

/-- Replacement for one character under the regex of `escapeHtml`
(source line 54): each of the five HTML-significant characters becomes its
entity, every other character is kept. -/
def escapeChar (c : Char) : List Char :=
  if c = '&' then ("&amp;").data
  else if c = '<' then ("&lt;").data
  else if c = '>' then ("&gt;").data
  else if c = '"' then ("&quot;").data
  else if c = '\'' then ("&#39;").data
  else [c]

/-- The string rewriting of `escapeHtml` on an already-stringified value. -/
def escapeChars (s : List Char) : List Char :=
  (s.map escapeChar).flatten

/-- Source `escapeHtml` (lines 53–55): `String(s)` followed by the
five-character entity replacement. -/
def escapeHtml (v : JSVal) : List Char :=
  escapeChars (jsToString v)

/-- Does `l` begin with `pat`? -/
def beginsWith : List Char → List Char → Bool
  | [], _ => true
  | _ :: _, [] => false
  | p :: ps, c :: cs => p == c && beginsWith ps cs

/-- Does `pat` occur contiguously inside `l`? -/
def containsSub (pat : List Char) : List Char → Bool
  | [] => beginsWith pat []
  | c :: cs => beginsWith pat (c :: cs) || containsSub pat cs

/-! Field names read from the request body. -/

def keyTitle : List Char := ("title").data
def keyQty : List Char := ("qty").data
def keyPrice : List Char := ("price").data
def keyOrderMeta : List Char := ("orderMeta").data
def keyItems : List Char := ("items").data
def keyOrderNumber : List Char := ("order_number").data
def keyOrderName : List Char := ("order_name").data
def keyPhone : List Char := ("phone").data
def keyShippingAddress : List Char := ("shipping_address").data
def keyId : List Char := ("id").data

/-- The empty JavaScript string `''` used as a rendering default. -/
def sEmpty : JSVal := JSVal.str []

/-! Literal fragments of the template in `buildHtml` (source lines 29
and 34–50), split at the interpolation points. -/

def rowA : List Char :=
  ("<tr><td style=\"padding:6px 8px;border-bottom:1px solid #eee\">").data
def rowB : List Char :=
  ("</td><td style=\"padding:6px 8px;border-bottom:1px solid #eee;text-align:center\">").data
def rowC : List Char :=
  ("</td><td style=\"padding:6px 8px;border-bottom:1px solid #eee;text-align:right\">").data
def rowD : List Char :=
  ("</td></tr>").data
def strXOF : List Char := (" XOF").data

def tpl1 : List Char :=
  ("\n    <div style=\"font-family:Arial,Helvetica,sans-serif;color:#0b2a3a\">\n      <h2>Nouvelle commande ").data
def tpl2 : List Char :=
  ("</h2>\n      <p><strong>Client :</strong> ").data
def tpl3 : List Char :=
  ("</p>\n      <p><strong>Tél :</strong> ").data
def tpl4 : List Char :=
  (" — <strong>Adresse :</strong> ").data
def tpl5 : List Char :=
  ("</p>\n      <table style=\"width:100%;border-collapse:collapse;margin-top:12px\">\n        <thead>\n          <tr><th style=\"text-align:left;padding:6px 8px;border-bottom:2px solid #ccc\">Article</th><th style=\"padding:6px 8px;border-bottom:2px solid #ccc\">Qté</th><th style=\"padding:6px 8px;border-bottom:2px solid #ccc;text-align:right\">Prix</th></tr>\n        </thead>\n        <tbody>\n          ").data
def tpl6 : List Char :=
  ("\n          <tr><td colspan=\"2\" style=\"padding:8px;text-align:right\"><strong>Total</strong></td><td style=\"padding:8px;text-align:right\"><strong>").data
def tpl7 : List Char :=
  (" XOF</strong></td></tr>\n        </tbody>\n      </table>\n      <p style=\"margin-top:14px;color:#6b7b8f\">ID commande interne: ").data
def tpl8 : List Char :=
  ("</p>\n    </div>\n  ").data

/-! Modelled runtime error messages.  The texts of engine-raised
`TypeError`/`SyntaxError` messages are implementation specific; the model
fixes one representative per throw site. -/

def msgReadNull : List Char :=
  ("Cannot read properties of null").data
def msgMapNotFn : List Char :=
  ("items.map is not a function").data
def msgDestructure : List Char :=
  ("Cannot destructure property of null or undefined").data

/-- One item row of the table (source lines 25–29).  The `Except` error
is the `TypeError` thrown when the item itself is `null`/`undefined`. -/
def rowOf (it : JSVal) : Except (List Char) (List Char) :=
  match access it keyTitle, access it keyQty, access it keyPrice with
  | some t, some q, some p =>
      Except.ok
        (rowA ++ escapeHtml (jsOr t sEmpty)
          ++ rowB ++ escapeHtml (JSVal.str (jsToString (jsOr q (JSVal.num (JNum.int 1)))))
          ++ rowC ++ (escapeHtml (JSVal.str (jsToString (jsOr p sEmpty))) ++ strXOF)
          ++ rowD)
  | _, _, _ => Except.error msgReadNull

/-- One step of the total's `reduce` (source line 32):
`s + Number(i.price || 0) * Number(i.qty || 1)`. -/
def totStep (s : JNum) (it : JSVal) : Except (List Char) JNum :=
  match access it keyPrice, access it keyQty with
  | some p, some q =>
      Except.ok
        (jadd s (jmul (jsToNumber (jsOr p (JSVal.num (JNum.int 0))))
                      (jsToNumber (jsOr q (JSVal.num (JNum.int 1))))))
  | _, _ => Except.error msgReadNull

/-- The total over an item list, `reduce` with initial accumulator `0`. -/
def totalOf (l : List JSVal) : Except (List Char) JNum :=
  List.foldlM totStep (JNum.int 0) l

/-- The `(items || []).map`/`.reduce` receiver: the fallback empty array
for falsy `items`, and a `TypeError` for truthy non-arrays. -/
def asArray (items : JSVal) : Except (List Char) (List JSVal) :=
  match jsOr items (JSVal.arr []) with
  | JSVal.arr l => Except.ok l
  | _ => Except.error msgMapNotFn

/-- Throwing property access: the `TypeError` of reading a property of
`null`/`undefined` as an `Except`. -/
def accessE (v : JSVal) (k : List Char) : Except (List Char) JSVal :=
  match access v k with
  | some x => Except.ok x
  | none => Except.error msgReadNull

/-- Source `buildHtml` (lines 24–51): the joined item rows, the reduced
total, and the template with each interpolated value passed through
`escapeHtml`. -/
def buildHtml (orderMeta : JSVal) (items : JSVal) : Except (List Char) (List Char) := do
  let l ← asArray items
  let rs ← l.mapM rowOf
  let rows := rs.flatten
  let total ← totalOf l
  let onum ← accessE orderMeta keyOrderNumber
  let oname ← accessE orderMeta keyOrderName
  let ophone ← accessE orderMeta keyPhone
  let oaddr ← accessE orderMeta keyShippingAddress
  let oid ← accessE orderMeta keyId
  pure
    (tpl1 ++ escapeHtml (jsOr onum sEmpty)
      ++ tpl2 ++ escapeHtml (jsOr oname sEmpty)
      ++ tpl3 ++ escapeHtml (jsOr ophone sEmpty)
      ++ tpl4 ++ escapeHtml (jsOr oaddr sEmpty)
      ++ tpl5 ++ rows
      ++ tpl6 ++ escapeHtml (JSVal.str (jsToString (JSVal.num total)))
      ++ tpl7 ++ escapeHtml (JSVal.str (jsToString (jsOr oid sEmpty)))
      ++ tpl8)

/-! Environment configuration (source lines 18–22).  Each field is the
raw `process.env` variable: `none` when unset, otherwise its string. -/

structure Config where
  SMTP_HOST : Option (List Char)
  SMTP_PORT : Option (List Char)
  SMTP_USER : Option (List Char)
  SMTP_PASS : Option (List Char)
  EMAIL_TO : Option (List Char)
  deriving DecidableEq, Repr

/-- The `process.env.X || default` idiom: an unset or empty variable
falls back. -/
def envOr (v : Option (List Char)) (d : List Char) : List Char :=
  match v with
  | some s => if s.isEmpty then d else s
  | none => d

/-- Source line 18: `process.env.SMTP_HOST || "smtp.gmail.com"`. -/
def host (c : Config) : List Char :=
  envOr c.SMTP_HOST (("smtp.gmail.com").data)

/-- Source line 19: `process.env.SMTP_PORT ? Number(process.env.SMTP_PORT) : 587`. -/
def port (c : Config) : JNum :=
  match c.SMTP_PORT with
  | some s => if s.isEmpty then JNum.int 587 else parseNum s
  | none => JNum.int 587

/-- Source line 22: `process.env.EMAIL_TO || process.env.SMTP_USER`. -/
def destAddr (c : Config) : Option (List Char) :=
  match c.EMAIL_TO with
  | some s => if s.isEmpty then c.SMTP_USER else some s
  | none => c.SMTP_USER

/-- Falsiness of an optional environment string (`!x` on `undefined` or `""`). -/
def falsyEnv : Option (List Char) → Bool
  | none => true
  | some s => s.isEmpty

/-- The guard `!user || !pass` (source line 63). -/
def credMissing (c : Config) : Bool :=
  falsyEnv c.SMTP_USER || falsyEnv c.SMTP_PASS

/-! The HTTP request/response surface and the observable effects. -/

/-- An incoming request: its method, the framework-parsed `req.body`
(`undef` when the runtime delivered none) and the raw stream contents. -/
structure Request where
  method : List Char
  body : JSVal
  rawBody : List Char

/-- Result object of a successful `sendMail`. -/
structure SendInfo where
  messageId : List Char
  accepted : List (List Char)
  deriving DecidableEq, Repr

/-- Outcomes of the two network calls: whether `transporter.verify()`
succeeds, and the `sendMail` result (`error` carries `err.message`). -/
structure SmtpEnv where
  verifyOk : Bool
  sendResult : Except (List Char) SendInfo

/-- JSON response bodies this endpoint produces. -/
inductive RespBody where
  | err (msg : List Char)
  | okMsg (messageId : List Char) (accepted : List (List Char))
  deriving DecidableEq, Repr

/-- An HTTP response: status code, optional `Allow` header, JSON body. -/
structure Response where
  status : Nat
  allow : Option (List Char)
  body : RespBody
  deriving DecidableEq, Repr

/-- The message options passed to `sendMail` (source lines 93–98). -/
structure MailOptions where
  sender : List Char
  toAddr : Option (List Char)
  subject : List Char
  html : List Char
  deriving DecidableEq, Repr

/-- Observable effects, in program order: console lines, the raw body
read, transport creation, the verify call and the send call. -/
inductive Effect where
  | logError (msg : List Char)
  | logWarn (msg : List Char)
  | readRaw
  | createTransport (h : List Char) (p : JNum) (secure : Bool)
      (u : Option (List Char)) (pw : Option (List Char))
  | verifyCall
  | sendCall (mail : MailOptions)
  deriving DecidableEq, Repr

/-! Fixed response and log strings of the handler. -/

def strPOST : List Char := ("POST").data
def msgMethodNotAllowed : List Char := ("Method not allowed").data
def msgCreds : List Char := ("SMTP credentials not configured").data
def msgCredsLog : List Char :=
  ("SMTP credentials not configured (SMTP_USER/SMTP_PASS)").data
def msgApiError : List Char := ("api/send-email error").data
def msgVerifyWarn : List Char := ("SMTP verify warning:").data
def msgSendFailed : List Char := ("send failed").data

/-- The catch clause's `err.message || 'send failed'` (source line 105). -/
def errOr (m : List Char) : List Char :=
  if m.isEmpty then msgSendFailed else m

/-- Destructuring `const { orderMeta, items } = body` (source line 70);
throws on `null`/`undefined`. -/
def destructure2 (b : JSVal) : Except (List Char) (JSVal × JSVal) :=
  match access b keyOrderMeta, access b keyItems with
  | some o, some i => Except.ok (o, i)
  | _, _ => Except.error msgDestructure

/-- The subject line (source line 91):
`Nouvelle commande ` followed by `orderMeta?.order_number || ''`. -/
def subjectOf (orderMeta : JSVal) : List Char :=
  ("Nouvelle commande ").data
    ++ jsToString (jsOr (optAccess orderMeta keyOrderNumber) sEmpty)

/-- The `from` field (source line 94): `"Medical Shop" <user>`. -/
def mkFrom (c : Config) : List Char :=
  ("\"Medical Shop\" <").data
    ++ (match c.SMTP_USER with
        | some u => u
        | none => ("undefined").data)
    ++ (">").data

/-- Source `handler` (lines 57–107), as a pure function of the
configuration, the network outcomes, a `JSON.parse` oracle (`error`
carries the `SyntaxError` message) and the request.  It returns the
response together with the trace of observable effects in program
order. -/
def handler (c : Config) (env : SmtpEnv)
    (jp : List Char → Except (List Char) JSVal) (req : Request) :
    Response × List Effect :=
  if req.method ≠ strPOST then
    (⟨405, some strPOST, RespBody.err msgMethodNotAllowed⟩, [])
  else if credMissing c then
    (⟨500, none, RespBody.err msgCreds⟩, [Effect.logError msgCredsLog])
  else
    match (if truthy req.body && hasKeys req.body
           then (Except.ok req.body, ([] : List Effect))
           else (jp req.rawBody, [Effect.readRaw])) with
    | (Except.error m, ef1) =>
        (⟨500, none, RespBody.err (errOr m)⟩, ef1 ++ [Effect.logError msgApiError])
    | (Except.ok b, ef1) =>
      match destructure2 b with
      | Except.error m =>
          (⟨500, none, RespBody.err (errOr m)⟩, ef1 ++ [Effect.logError msgApiError])
      | Except.ok (om, its) =>
        let ef2 := ef1 ++ [Effect.createTransport (host c) (port c)
          (port c == JNum.int 465) c.SMTP_USER c.SMTP_PASS]
        let ef3 := ef2 ++ [Effect.verifyCall]
          ++ (if env.verifyOk then [] else [Effect.logWarn msgVerifyWarn])
        match buildHtml (jsOr om (JSVal.obj [])) (jsOr its (JSVal.arr [])) with
        | Except.error m =>
            (⟨500, none, RespBody.err (errOr m)⟩, ef3 ++ [Effect.logError msgApiError])
        | Except.ok h =>
          let mail : MailOptions := ⟨mkFrom c, destAddr c, subjectOf om, h⟩
          let ef4 := ef3 ++ [Effect.sendCall mail]
          match env.sendResult with
          | Except.ok info =>
              (⟨200, none, RespBody.okMsg info.messageId info.accepted⟩, ef4)
          | Except.error m =>
              (⟨500, none, RespBody.err (errOr m)⟩, ef4 ++ [Effect.logError msgApiError])

/-! Concrete inputs used by the claims. -/

/-- A line item whose title is the attack string `<script>`. -/
def scriptItem : JSVal := JSVal.obj [(keyTitle, JSVal.str (("<script>").data))]

/-- The document rendered for a minimal order holding `scriptItem`. -/
def scriptDoc : Except (List Char) (List Char) :=
  buildHtml (JSVal.obj []) (JSVal.arr [scriptItem])

/-- Substring test on a render result; an error renders nothing. -/
def docHas (d : Except (List Char) (List Char)) (pat : List Char) : Bool :=
  match d with
  | Except.ok h => containsSub pat h
  | Except.error _ => false

/-! Well-formedness of the escaping: an `&` in `escapeHtml` output only
ever starts one of the five entities it emits. -/

/-- Does the list start with the tail of one of the five entities? -/
def hasEntityTail (l : List Char) : Bool :=
  beginsWith (("amp;").data) l || beginsWith (("lt;").data) l
    || beginsWith (("gt;").data) l || beginsWith (("quot;").data) l
    || beginsWith (("#39;").data) l

/-- Every `&` in the list is immediately followed by an entity tail. -/
def ampOk : List Char → Bool
  | [] => true
  | c :: rest => (if c = '&' then hasEntityTail rest else true) && ampOk rest

theorem beginsWith_append_self (p r : List Char) : beginsWith p (p ++ r) = true := by
  induction p with
  | nil => rfl
  | cons c cs ih => simp [beginsWith, ih]

theorem ampOk_cons (c : Char) (r : List Char) :
    ampOk (c :: r) = ((if c = '&' then hasEntityTail r else true) && ampOk r) := rfl

theorem ampOk_escapeChar_append (c : Char) (r : List Char) :
    ampOk (escapeChar c ++ r) = ampOk r := by
  unfold escapeChar
  split_ifs with h1 h2 h3 h4 h5
  · subst h1
    show ampOk ('&' :: (("amp;").data ++ r)) = ampOk r
    rw [ampOk_cons, if_pos rfl]
    have ht : hasEntityTail (("amp;").data ++ r) = true := by
      unfold hasEntityTail
      rw [beginsWith_append_self]
      rfl
    rw [ht]
    show ampOk (("amp;").data ++ r) = ampOk r
    rfl
  · subst h2
    show ampOk ('&' :: (("lt;").data ++ r)) = ampOk r
    rw [ampOk_cons, if_pos rfl]
    have ht : hasEntityTail (("lt;").data ++ r) = true := by
      unfold hasEntityTail
      rw [beginsWith_append_self]
      simp
    rw [ht]
    show ampOk (("lt;").data ++ r) = ampOk r
    rfl
  · subst h3
    show ampOk ('&' :: (("gt;").data ++ r)) = ampOk r
    rw [ampOk_cons, if_pos rfl]
    have ht : hasEntityTail (("gt;").data ++ r) = true := by
      unfold hasEntityTail
      rw [beginsWith_append_self]
      simp
    rw [ht]
    show ampOk (("gt;").data ++ r) = ampOk r
    rfl
  · subst h4
    show ampOk ('&' :: (("quot;").data ++ r)) = ampOk r
    rw [ampOk_cons, if_pos rfl]
    have ht : hasEntityTail (("quot;").data ++ r) = true := by
      unfold hasEntityTail
      rw [beginsWith_append_self]
      simp
    rw [ht]
    show ampOk (("quot;").data ++ r) = ampOk r
    rfl
  · subst h5
    show ampOk ('&' :: (("#39;").data ++ r)) = ampOk r
    rw [ampOk_cons, if_pos rfl]
    have ht : hasEntityTail (("#39;").data ++ r) = true := by
      unfold hasEntityTail
      rw [beginsWith_append_self]
      simp
    rw [ht]
    show ampOk (("#39;").data ++ r) = ampOk r
    rfl
  · show ampOk (c :: r) = ampOk r
    rw [ampOk_cons, if_neg h1]
    simp

theorem escapeChars_cons (c : Char) (s : List Char) :
    escapeChars (c :: s) = escapeChar c ++ escapeChars s := rfl

theorem ampOk_escapeChars (s : List Char) : ampOk (escapeChars s) = true := by
  induction s with
  | nil => rfl
  | cons c cs ih => rw [escapeChars_cons, ampOk_escapeChar_append, ih]

theorem escapeChar_mem (c a : Char) (h : a ∈ escapeChar c) :
    a ≠ '<' ∧ a ≠ '>' ∧ a ≠ '"' ∧ a ≠ '\'' := by
  unfold escapeChar at h
  split_ifs at h with h1 h2 h3 h4 h5
  · refine ⟨?_, ?_, ?_, ?_⟩ <;> (rintro rfl; exact absurd h (by decide))
  · refine ⟨?_, ?_, ?_, ?_⟩ <;> (rintro rfl; exact absurd h (by decide))
  · refine ⟨?_, ?_, ?_, ?_⟩ <;> (rintro rfl; exact absurd h (by decide))
  · refine ⟨?_, ?_, ?_, ?_⟩ <;> (rintro rfl; exact absurd h (by decide))
  · refine ⟨?_, ?_, ?_, ?_⟩ <;> (rintro rfl; exact absurd h (by decide))
  · have : a = c := by simpa using h
    subst this
    exact ⟨h2, h3, h4, h5⟩

theorem escapeChars_mem (s : List Char) (a : Char) (h : a ∈ escapeChars s) :
    a ≠ '<' ∧ a ≠ '>' ∧ a ≠ '"' ∧ a ≠ '\'' := by
  unfold escapeChars at h
  rw [List.mem_flatten] at h
  obtain ⟨l, hl, hal⟩ := h
  rw [List.mem_map] at hl
  obtain ⟨c, _, rfl⟩ := hl
  exact escapeChar_mem c a hal

/-- C2: every string value interpolated into the document goes through
`escapeHtml`, whose output never contains a raw `<`, `>`, `"` or `'` and
in which every `&` immediately starts one of the five entities; for an
item titled `<script>` the rendered document contains `&lt;script&gt;`
and no raw `<script>`. -/
theorem c2_escaping :
    (∀ (v : JSVal) (a : Char), a ∈ escapeHtml v →
        a ≠ '<' ∧ a ≠ '>' ∧ a ≠ '"' ∧ a ≠ '\'')
    ∧ (∀ v : JSVal, ampOk (escapeHtml v) = true)
    ∧ scriptDoc.isOk = true
    ∧ docHas scriptDoc (("&lt;script&gt;").data) = true
    ∧ docHas scriptDoc (("<script>").data) = false := by
  refine ⟨fun v a h => escapeChars_mem _ a h, fun v => ampOk_escapeChars _, ?_, ?_, ?_⟩
  · decide
  · decide
  · decide

/-- Witness for C2 at a concrete escaped value. -/
theorem c2_witness :
    (('x' : Char) ≠ '<' ∧ ('x' : Char) ≠ '>' ∧ ('x' : Char) ≠ '"' ∧ ('x' : Char) ≠ '\'')
    ∧ ampOk (escapeHtml (JSVal.str (("<a>").data))) = true := by
  exact ⟨c2_escaping.1 (JSVal.str (("x").data)) 'x' (by decide), c2_escaping.2.1 _⟩

/-! Concrete fixtures for witnesses. -/

def cfgEx : Config :=
  ⟨none, none, some (("u@example.com").data), some (("secret").data), none⟩

def cfgNoUser : Config :=
  ⟨none, none, none, some (("secret").data), none⟩

def infoEx : SendInfo := ⟨("m1").data, [("dest@example.com").data]⟩

def envEx : SmtpEnv := ⟨true, Except.ok infoEx⟩

def jpFail : List Char → Except (List Char) JSVal :=
  fun _ => Except.error (("Unexpected end of JSON input").data)

def reqGet : Request := ⟨("GET").data, JSVal.undef, []⟩

def reqPostEmptyBody : Request := ⟨("POST").data, JSVal.obj [], []⟩

/-- A well-formed POST request whose parsed body holds one order. -/
def reqPostOrder : Request :=
  ⟨("POST").data,
    JSVal.obj
      [(keyOrderMeta, JSVal.obj [(keyOrderNumber, JSVal.str (("1001").data))]),
       (keyItems, JSVal.arr
          [JSVal.obj [(keyTitle, JSVal.str (("A").data)),
                      (keyQty, JSVal.num (JNum.int 2)),
                      (keyPrice, JSVal.num (JNum.int 500))]])],
    []⟩

/-- C3: a request whose method is not POST is answered `405` with an
`Allow: POST` header and the `Method not allowed` JSON error, and the
effect trace is empty: no body read, no transport, no verify, no send. -/
theorem c3_non_post (c : Config) (env : SmtpEnv)
    (jp : List Char → Except (List Char) JSVal) (req : Request)
    (h : req.method ≠ strPOST) :
    handler c env jp req =
      (⟨405, some strPOST, RespBody.err msgMethodNotAllowed⟩, []) := by
  unfold handler
  rw [if_pos h]

/-- Witness for C3 at a concrete GET request. -/
theorem c3_witness :
    handler cfgEx envEx jpFail reqGet =
      (⟨405, some strPOST, RespBody.err msgMethodNotAllowed⟩, []) :=
  c3_non_post cfgEx envEx jpFail reqGet (by decide)

/-- C4: a POST request with the SMTP user or password unset is answered
`500` with the `SMTP credentials not configured` JSON error regardless of
the body, and the only effect is the error log line: no transport
creation, no verify, no send. -/
theorem c4_missing_creds (c : Config) (env : SmtpEnv)
    (jp : List Char → Except (List Char) JSVal) (req : Request)
    (hm : req.method = strPOST)
    (hc : c.SMTP_USER = none ∨ c.SMTP_PASS = none) :
    handler c env jp req =
      (⟨500, none, RespBody.err msgCreds⟩, [Effect.logError msgCredsLog]) := by
  have hcm : credMissing c = true := by
    rcases hc with h | h <;> simp [credMissing, falsyEnv, h]
  unfold handler
  rw [if_neg (by simp [hm]), if_pos hcm]

/-- Witness for C4 at a concrete credential-less configuration. -/
theorem c4_witness :
    handler cfgNoUser envEx jpFail reqPostOrder =
      (⟨500, none, RespBody.err msgCreds⟩, [Effect.logError msgCredsLog]) :=
  c4_missing_creds cfgNoUser envEx jpFail reqPostOrder (by decide) (Or.inl rfl)

/-- Helper: on the path that reaches `sendMail` (POST, credentials set,
pre-parsed body used, destructuring and rendering succeed) the response is
decided by the send outcome alone. -/
theorem handler_sendPath (c : Config) (env : SmtpEnv)
    (jp : List Char → Except (List Char) JSVal) (req : Request)
    (om its : JSVal) (h : List Char)
    (hm : req.method = strPOST) (hc : credMissing c = false)
    (hb : (truthy req.body && hasKeys req.body) = true)
    (hd : destructure2 req.body = Except.ok (om, its))
    (hh : buildHtml (jsOr om (JSVal.obj [])) (jsOr its (JSVal.arr [])) = Except.ok h) :
    (handler c env jp req).fst =
      (match env.sendResult with
       | Except.ok info => ⟨200, none, RespBody.okMsg info.messageId info.accepted⟩
       | Except.error m => ⟨500, none, RespBody.err (errOr m)⟩) := by
  unfold handler
  rw [if_neg (by simp [hm]), if_neg (by simp [hc]), if_pos hb]
  dsimp only
  rw [hd]
  dsimp only
  rw [hh]
  dsimp only
  cases env.sendResult <;> rfl

/-- Helper: a POST request with credentials whose pre-parsed body is
unusable and whose raw body fails to parse is answered `500` with the
parse error's message. -/
theorem handler_parseFail (c : Config) (env : SmtpEnv)
    (jp : List Char → Except (List Char) JSVal) (req : Request) (m : List Char)
    (hm : req.method = strPOST) (hc : credMissing c = false)
    (hb : (truthy req.body && hasKeys req.body) = false)
    (hjp : jp req.rawBody = Except.error m) :
    handler c env jp req =
      (⟨500, none, RespBody.err (errOr m)⟩,
       [Effect.readRaw, Effect.logError msgApiError]) := by
  unfold handler
  rw [if_neg (by simp [hm]), if_neg (by simp [hc]), if_neg (by simp [hb])]
  dsimp only
  rw [hjp]
  rfl

/-- Helper: when rendering throws, the catch clause answers `500` with the
thrown message. -/
theorem handler_renderFail (c : Config) (env : SmtpEnv)
    (jp : List Char → Except (List Char) JSVal) (req : Request)
    (om its : JSVal) (m : List Char)
    (hm : req.method = strPOST) (hc : credMissing c = false)
    (hb : (truthy req.body && hasKeys req.body) = true)
    (hd : destructure2 req.body = Except.ok (om, its))
    (hh : buildHtml (jsOr om (JSVal.obj [])) (jsOr its (JSVal.arr [])) = Except.error m) :
    (handler c env jp req).fst = ⟨500, none, RespBody.err (errOr m)⟩ := by
  unfold handler
  rw [if_neg (by simp [hm]), if_neg (by simp [hc]), if_pos hb]
  dsimp only
  rw [hd]
  dsimp only
  rw [hh]

/-- C5: the outcome of the pre-send `verify` never influences the
response — a run with failed verification answers exactly like the same
run with successful verification — and in particular a failed
verification followed by a successful send still yields `200` with the
success body. -/
theorem c5_verify_noninterference :
    (∀ (c : Config) (r : Except (List Char) SendInfo)
        (jp : List Char → Except (List Char) JSVal) (req : Request),
        (handler c ⟨false, r⟩ jp req).fst = (handler c ⟨true, r⟩ jp req).fst)
    ∧ (∀ (c : Config) (jp : List Char → Except (List Char) JSVal) (req : Request)
        (om its : JSVal) (h : List Char) (info : SendInfo),
        req.method = strPOST → credMissing c = false →
        (truthy req.body && hasKeys req.body) = true →
        destructure2 req.body = Except.ok (om, its) →
        buildHtml (jsOr om (JSVal.obj [])) (jsOr its (JSVal.arr [])) = Except.ok h →
        (handler c ⟨false, Except.ok info⟩ jp req).fst =
          ⟨200, none, RespBody.okMsg info.messageId info.accepted⟩) := by
  constructor
  · intro c r jp req
    unfold handler
    by_cases h1 : req.method ≠ strPOST
    · rw [if_pos h1, if_pos h1]
    · rw [if_neg h1, if_neg h1]
      by_cases h2 : credMissing c = true
      · rw [if_pos h2, if_pos h2]
      · rw [if_neg h2, if_neg h2]
        generalize (if (truthy req.body && hasKeys req.body) = true
             then (Except.ok req.body, ([] : List Effect))
             else (jp req.rawBody, [Effect.readRaw])) = pr
        obtain ⟨bres, ef1⟩ := pr
        cases bres with
        | error m => rfl
        | ok b =>
          dsimp only
          cases hd : destructure2 b with
          | error m => rfl
          | ok p =>
            obtain ⟨om, its⟩ := p
            dsimp only
            cases hh : buildHtml (jsOr om (JSVal.obj [])) (jsOr its (JSVal.arr [])) with
            | error m => rfl
            | ok h =>
              dsimp only
              cases r with
              | error m => rfl
              | ok info => rfl
  · intro c jp req om its h info hm hc hb hd hh
    rw [handler_sendPath c ⟨false, Except.ok info⟩ jp req om its h hm hc hb hd hh]

/-- Witness for C5: verification failure plus a successful send on a
concrete order still answers `200`. -/
theorem c5_witness :
    (handler cfgEx ⟨false, Except.ok infoEx⟩ jpFail reqPostOrder).fst =
      ⟨200, none, RespBody.okMsg infoEx.messageId infoEx.accepted⟩ := by
  exact c5_verify_noninterference.2 cfgEx jpFail reqPostOrder
    (JSVal.obj [(keyOrderNumber, JSVal.str (("1001").data))])
    (JSVal.arr
      [JSVal.obj [(keyTitle, JSVal.str (("A").data)),
                  (keyQty, JSVal.num (JNum.int 2)),
                  (keyPrice, JSVal.num (JNum.int 500))]])
    _ infoEx rfl rfl rfl rfl rfl

/-- An SMTP environment whose send fails with the message `boom`. -/
def envSendFail : SmtpEnv := ⟨true, Except.error (("boom").data)⟩

/-- C6: with method POST and credentials configured, a successful send
answers `200` with the acknowledgement body carrying the provider message
id and accepted recipients, while a JSON-parse failure, a rendering
exception or a send failure is caught and answered `500` with the
exception's message. -/
theorem c6_outcomes (c : Config) (env : SmtpEnv)
    (jp : List Char → Except (List Char) JSVal) (req : Request)
    (hm : req.method = strPOST) (hc : credMissing c = false) :
    (∀ (om its : JSVal) (h : List Char) (info : SendInfo),
        (truthy req.body && hasKeys req.body) = true →
        destructure2 req.body = Except.ok (om, its) →
        buildHtml (jsOr om (JSVal.obj [])) (jsOr its (JSVal.arr [])) = Except.ok h →
        env.sendResult = Except.ok info →
        (handler c env jp req).fst =
          ⟨200, none, RespBody.okMsg info.messageId info.accepted⟩)
    ∧ (∀ m : List Char,
        (truthy req.body && hasKeys req.body) = false →
        jp req.rawBody = Except.error m →
        (handler c env jp req).fst = ⟨500, none, RespBody.err (errOr m)⟩)
    ∧ (∀ (om its : JSVal) (m : List Char),
        (truthy req.body && hasKeys req.body) = true →
        destructure2 req.body = Except.ok (om, its) →
        buildHtml (jsOr om (JSVal.obj [])) (jsOr its (JSVal.arr [])) = Except.error m →
        (handler c env jp req).fst = ⟨500, none, RespBody.err (errOr m)⟩)
    ∧ (∀ (om its : JSVal) (h : List Char) (m : List Char),
        (truthy req.body && hasKeys req.body) = true →
        destructure2 req.body = Except.ok (om, its) →
        buildHtml (jsOr om (JSVal.obj [])) (jsOr its (JSVal.arr [])) = Except.ok h →
        env.sendResult = Except.error m →
        (handler c env jp req).fst = ⟨500, none, RespBody.err (errOr m)⟩) := by
  refine ⟨?_, ?_, ?_, ?_⟩
  · intro om its h info hb hd hh hs
    rw [handler_sendPath c env jp req om its h hm hc hb hd hh, hs]
  · intro m hb hjp
    rw [handler_parseFail c env jp req m hm hc hb hjp]
  · intro om its m hb hd hh
    exact handler_renderFail c env jp req om its m hm hc hb hd hh
  · intro om its h m hb hd hh hs
    rw [handler_sendPath c env jp req om its h hm hc hb hd hh, hs]

/-- A POST request whose `items` field is a (truthy) number, so that
rendering throws on `.map`. -/
def reqPostBadItems : Request :=
  ⟨("POST").data, JSVal.obj [(keyItems, JSVal.num (JNum.int 5))], []⟩

/-- Witness for C6: all four outcomes at concrete runs — success,
malformed raw JSON, rendering exception, send failure. -/
theorem c6_witness :
    ((handler cfgEx envEx jpFail reqPostOrder).fst =
        ⟨200, none, RespBody.okMsg infoEx.messageId infoEx.accepted⟩)
    ∧ ((handler cfgEx envEx jpFail reqPostEmptyBody).fst =
        ⟨500, none, RespBody.err (("Unexpected end of JSON input").data)⟩)
    ∧ ((handler cfgEx envEx jpFail reqPostBadItems).fst =
        ⟨500, none, RespBody.err msgMapNotFn⟩)
    ∧ ((handler cfgEx envSendFail jpFail reqPostOrder).fst =
        ⟨500, none, RespBody.err (("boom").data)⟩) := by
  refine ⟨?_, ?_, ?_, ?_⟩
  · exact (c6_outcomes cfgEx envEx jpFail reqPostOrder rfl rfl).1
      (JSVal.obj [(keyOrderNumber, JSVal.str (("1001").data))])
      (JSVal.arr
        [JSVal.obj [(keyTitle, JSVal.str (("A").data)),
                    (keyQty, JSVal.num (JNum.int 2)),
                    (keyPrice, JSVal.num (JNum.int 500))]])
      _ infoEx rfl rfl rfl rfl
  · exact (c6_outcomes cfgEx envEx jpFail reqPostEmptyBody rfl rfl).2.1
      (("Unexpected end of JSON input").data) rfl rfl
  · exact (c6_outcomes cfgEx envEx jpFail reqPostBadItems rfl rfl).2.2.1
      JSVal.undef (JSVal.num (JNum.int 5)) msgMapNotFn rfl rfl rfl
  · exact (c6_outcomes cfgEx envSendFail jpFail reqPostOrder rfl rfl).2.2.2
      (JSVal.obj [(keyOrderNumber, JSVal.str (("1001").data))])
      (JSVal.arr
        [JSVal.obj [(keyTitle, JSVal.str (("A").data)),
                    (keyQty, JSVal.num (JNum.int 2)),
                    (keyPrice, JSVal.num (JNum.int 500))]])
      _ (("boom").data) rfl rfl rfl rfl

/-! Claim C1: the total.  `claimPrice`/`claimQty`/`claimTotal` transcribe
the claim's words — the sum over all entries of `price × quantity` where a
missing/invalid price counts `0` and a missing/invalid quantity counts
`1`.  `amendedPrice`/`amendedQty`/`amendedTotal` are the amended reading —
the code defaults on *falsy* fields (so an explicit `0`, `""`, `null` or
`false` also falls back), matching `Number(i.price || 0)` and
`Number(i.qty || 1)`. -/

/-- Price factor as claim C1 words it: the coerced number when valid,
else `0`. -/
def claimPrice (it : JSVal) : Int :=
  match access it keyPrice with
  | some p => (match jsToNumber p with | JNum.int i => i | JNum.nan => 0)
  | none => 0

/-- Quantity factor as claim C1 words it: the coerced number when valid,
else `1`. -/
def claimQty (it : JSVal) : Int :=
  match access it keyQty with
  | some q => (match jsToNumber q with | JNum.int i => i | JNum.nan => 1)
  | none => 1

/-- The total as claim C1 states it. -/
def claimTotal (l : List JSVal) : Int :=
  (l.map (fun it => claimPrice it * claimQty it)).sum

/-- The effective coerced price of the code, `Number(i.price || 0)`. -/
def effPrice (it : JSVal) : JNum :=
  match access it keyPrice with
  | some p => jsToNumber (jsOr p (JSVal.num (JNum.int 0)))
  | none => JNum.nan

/-- The effective coerced quantity of the code, `Number(i.qty || 1)`. -/
def effQty (it : JSVal) : JNum :=
  match access it keyQty with
  | some q => jsToNumber (jsOr q (JSVal.num (JNum.int 1)))
  | none => JNum.nan

/-- An item both of whose effective factors are numbers (no `NaN`). -/
def itemNumericOk (it : JSVal) : Bool :=
  isIntNum (effPrice it) && isIntNum (effQty it)

/-- Price factor of the amended claim: the coerced value of a truthy
numeric price, `0` for a falsy one. -/
def amendedPrice (it : JSVal) : Int :=
  match access it keyPrice with
  | some p =>
      if truthy p then (match jsToNumber p with | JNum.int i => i | JNum.nan => 0) else 0
  | none => 0

/-- Quantity factor of the amended claim: the coerced value of a truthy
numeric quantity, `1` for a falsy one. -/
def amendedQty (it : JSVal) : Int :=
  match access it keyQty with
  | some q =>
      if truthy q then (match jsToNumber q with | JNum.int i => i | JNum.nan => 1) else 1
  | none => 1

/-- The total of the amended claim. -/
def amendedTotal (l : List JSVal) : Int :=
  (l.map (fun it => amendedPrice it * amendedQty it)).sum

/-- The item `{title:"A", qty:0, price:500}`: present, valid quantity `0`. -/
def c1Item : JSVal :=
  JSVal.obj [(keyTitle, JSVal.str (("A").data)),
             (keyQty, JSVal.num (JNum.int 0)),
             (keyPrice, JSVal.num (JNum.int 500))]

/-- C1 counterexample: for the single item `{title:"A", qty:0, price:500}`
the claim's sum `price × quantity` (with only missing/invalid fields
defaulted) is `0`, but the code computes `500`: `Number(i.qty || 1)`
defaults every falsy quantity, so the explicit, valid `qty: 0` is billed
as `1`. -/
theorem c1_counterexample :
    totalOf [c1Item] = Except.ok (JNum.int 500)
    ∧ claimTotal [c1Item] = 0
    ∧ JNum.int 500 ≠ JNum.int 0 :=
  ⟨rfl, rfl, by decide⟩

theorem totStep_ok (a : Int) (it : JSVal) (h : itemNumericOk it = true) :
    totStep (JNum.int a) it =
      Except.ok (JNum.int (a + amendedPrice it * amendedQty it)) := by
  unfold itemNumericOk at h
  rw [Bool.and_eq_true] at h
  obtain ⟨hp, hq⟩ := h
  unfold effPrice at hp
  unfold effQty at hq
  unfold totStep amendedPrice amendedQty
  cases hap : access it keyPrice with
  | none => rw [hap] at hp; exact absurd hp (by decide)
  | some p =>
    cases haq : access it keyQty with
    | none => rw [haq] at hq; exact absurd hq (by decide)
    | some q =>
      rw [hap] at hp
      rw [haq] at hq
      dsimp only at hp hq ⊢
      by_cases htp : truthy p = true
      · by_cases htq : truthy q = true
        · rw [if_pos htp, if_pos htq]
          have ep : jsOr p (JSVal.num (JNum.int 0)) = p := by simp [jsOr, htp]
          have eq' : jsOr q (JSVal.num (JNum.int 1)) = q := by simp [jsOr, htq]
          rw [ep] at hp ⊢
          rw [eq'] at hq ⊢
          cases hjp : jsToNumber p with
          | nan => rw [hjp] at hp; exact absurd hp (by decide)
          | int i =>
            cases hjq : jsToNumber q with
            | nan => rw [hjq] at hq; exact absurd hq (by decide)
            | int j => rfl
        · rw [if_pos htp, if_neg htq]
          have ep : jsOr p (JSVal.num (JNum.int 0)) = p := by simp [jsOr, htp]
          have eq' : jsOr q (JSVal.num (JNum.int 1)) = JSVal.num (JNum.int 1) := by
            simp [jsOr, htq]
          rw [ep] at hp ⊢
          rw [eq'] at hq ⊢
          cases hjp : jsToNumber p with
          | nan => rw [hjp] at hp; exact absurd hp (by decide)
          | int i => rfl
      · by_cases htq : truthy q = true
        · rw [if_neg htp, if_pos htq]
          have ep : jsOr p (JSVal.num (JNum.int 0)) = JSVal.num (JNum.int 0) := by
            simp [jsOr, htp]
          have eq' : jsOr q (JSVal.num (JNum.int 1)) = q := by simp [jsOr, htq]
          rw [ep] at hp ⊢
          rw [eq'] at hq ⊢
          cases hjq : jsToNumber q with
          | nan => rw [hjq] at hq; exact absurd hq (by decide)
          | int j => rfl
        · rw [if_neg htp, if_neg htq]
          have ep : jsOr p (JSVal.num (JNum.int 0)) = JSVal.num (JNum.int 0) := by
            simp [jsOr, htp]
          have eq' : jsOr q (JSVal.num (JNum.int 1)) = JSVal.num (JNum.int 1) := by
            simp [jsOr, htq]
          rw [ep, eq']
          rfl

theorem totalOf_go (l : List JSVal) (a : Int) (h : l.all itemNumericOk = true) :
    List.foldlM totStep (JNum.int a) l = Except.ok (JNum.int (a + amendedTotal l)) := by
  induction l generalizing a with
  | nil =>
    show Except.ok (JNum.int a) = Except.ok (JNum.int (a + amendedTotal []))
    simp [amendedTotal]
  | cons it rest ih =>
    rw [List.all_cons, Bool.and_eq_true] at h
    obtain ⟨h1, h2⟩ := h
    rw [List.foldlM_cons, totStep_ok a it h1]
    show List.foldlM totStep (JNum.int (a + amendedPrice it * amendedQty it)) rest = _
    rw [ih (a + amendedPrice it * amendedQty it) h2]
    simp only [amendedTotal, List.map_cons, List.sum_cons]
    rw [Int.add_assoc]

/-- C1 amended: for every items array whose entries all have numeric
effective factors (`Number(price || 0)` and `Number(qty || 1)` are not
`NaN`), the code's total equals the sum over entries of
`amendedPrice × amendedQty` — price with falsy values defaulted to `0`,
quantity with falsy values (including an explicit `0`) defaulted to `1`;
on the A/B example of the claim this total is `2000`. -/
theorem c1_total_amended (l : List JSVal) (h : l.all itemNumericOk = true) :
    totalOf l = Except.ok (JNum.int (amendedTotal l)) := by
  have hg := totalOf_go l 0 h
  simpa [totalOf] using hg

/-- The claim's example items `[{title:"A", qty:2, price:500},
{title:"B", qty:1, price:1000}]`. -/
def exItemsC1 : List JSVal :=
  [JSVal.obj [(keyTitle, JSVal.str (("A").data)),
              (keyQty, JSVal.num (JNum.int 2)),
              (keyPrice, JSVal.num (JNum.int 500))],
   JSVal.obj [(keyTitle, JSVal.str (("B").data)),
              (keyQty, JSVal.num (JNum.int 1)),
              (keyPrice, JSVal.num (JNum.int 1000))]]

/-- Witness for C1 amended: the claim's example totals `2000`. -/
theorem c1_witness : totalOf exItemsC1 = Except.ok (JNum.int 2000) := by
  have h := c1_total_amended exItemsC1 (by decide)
  rw [h]
  rfl

/-! Claim C7: defaults in the rendered row. -/

/-- Substring test on a row render; an error renders nothing. -/
def rowHas (it : JSVal) (pat : List Char) : Bool :=
  match rowOf it with
  | Except.ok r => containsSub pat r
  | Except.error _ => false

/-- The item `{title:"A", qty:2}` with no price field. -/
def c7Item : JSVal :=
  JSVal.obj [(keyTitle, JSVal.str (("A").data)),
             (keyQty, JSVal.num (JNum.int 2))]

/-- C7 counterexample: for the item `{title:"A", qty:2}` the rendered row
contains no digit `0` at all — the price cell is `"> XOF"`, i.e. empty
before the fixed suffix — so the absent unit price is rendered as the
empty string, not as the number `0` the claim states. -/
theorem c7_counterexample :
    (rowOf c7Item).isOk = true
    ∧ rowHas c7Item (("0").data) = false
    ∧ rowHas c7Item (("> XOF").data) = true :=
  ⟨by decide, by decide, by decide⟩

/-- C7 amended: in the rendered row the quantity cell of an absent/falsy
`qty` shows `1` and the price cell of an absent/falsy `price` shows the
empty string (the `0` default applies only inside the total computation),
always followed by the fixed currency suffix `XOF`. -/
theorem c7_row_amended (it t q p : JSVal)
    (ht : access it keyTitle = some t)
    (haq : access it keyQty = some q) (hq : truthy q = false)
    (hap : access it keyPrice = some p) (hp : truthy p = false) :
    rowOf it =
      Except.ok (rowA ++ escapeHtml (jsOr t sEmpty) ++ rowB ++ ("1").data
        ++ rowC ++ strXOF ++ rowD) := by
  unfold rowOf
  rw [ht, haq, hap]
  dsimp only
  have e1 : jsOr q (JSVal.num (JNum.int 1)) = JSVal.num (JNum.int 1) := by
    simp [jsOr, hq]
  have e2 : jsOr p sEmpty = sEmpty := by
    simp [jsOr, hp]
  rw [e1, e2]
  rfl

/-- The item `{title:"A"}` with neither quantity nor price. -/
def c7WitnessItem : JSVal := JSVal.obj [(keyTitle, JSVal.str (("A").data))]

/-- Witness for C7 amended at the item `{title:"A"}`. -/
theorem c7_witness :
    rowOf c7WitnessItem =
      Except.ok (rowA ++ ("A").data ++ rowB ++ ("1").data
        ++ rowC ++ strXOF ++ rowD) :=
  c7_row_amended c7WitnessItem (JSVal.str (("A").data)) JSVal.undef JSVal.undef
    rfl rfl rfl rfl rfl

/-! Claim C8: dispatch configuration. -/

/-- Helper: full effect trace of a run that reaches `sendMail` through the
pre-parsed body. -/
theorem handler_sendPath_snd (c : Config) (env : SmtpEnv)
    (jp : List Char → Except (List Char) JSVal) (req : Request)
    (om its : JSVal) (h : List Char)
    (hm : req.method = strPOST) (hc : credMissing c = false)
    (hb : (truthy req.body && hasKeys req.body) = true)
    (hd : destructure2 req.body = Except.ok (om, its))
    (hh : buildHtml (jsOr om (JSVal.obj [])) (jsOr its (JSVal.arr [])) = Except.ok h) :
    (handler c env jp req).snd =
      [Effect.createTransport (host c) (port c) (port c == JNum.int 465)
          c.SMTP_USER c.SMTP_PASS]
        ++ [Effect.verifyCall]
        ++ (if env.verifyOk then [] else [Effect.logWarn msgVerifyWarn])
        ++ [Effect.sendCall ⟨mkFrom c, destAddr c, subjectOf om, h⟩]
        ++ (match env.sendResult with
            | Except.ok _ => []
            | Except.error _ => [Effect.logError msgApiError]) := by
  unfold handler
  rw [if_neg (by simp [hm]), if_neg (by simp [hc]), if_pos hb]
  dsimp only
  rw [hd]
  dsimp only
  rw [hh]
  dsimp only
  cases env.sendResult <;> simp

/-- C8: the dispatch configuration — host defaults to `smtp.gmail.com`,
port defaults to `587`, the `secure` flag passed to the transport is set
exactly when the configured port is `465`, the transport authenticates
with the configured account and secret, and the message's destination
falls back to the SMTP account when no destination is configured. -/
theorem c8_dispatch_config :
    (∀ c : Config, c.SMTP_HOST = none → host c = ("smtp.gmail.com").data)
    ∧ (∀ c : Config, c.SMTP_PORT = none → port c = JNum.int 587)
    ∧ (∀ c : Config, (port c == JNum.int 465) = true ↔ port c = JNum.int 465)
    ∧ (∀ c : Config, c.EMAIL_TO = none → destAddr c = c.SMTP_USER)
    ∧ (∀ (c : Config) (env : SmtpEnv)
        (jp : List Char → Except (List Char) JSVal) (req : Request)
        (om its : JSVal) (h : List Char),
        req.method = strPOST → credMissing c = false →
        (truthy req.body && hasKeys req.body) = true →
        destructure2 req.body = Except.ok (om, its) →
        buildHtml (jsOr om (JSVal.obj [])) (jsOr its (JSVal.arr [])) = Except.ok h →
        Effect.createTransport (host c) (port c) (port c == JNum.int 465)
            c.SMTP_USER c.SMTP_PASS ∈ (handler c env jp req).snd
          ∧ Effect.sendCall ⟨mkFrom c, destAddr c, subjectOf om, h⟩
              ∈ (handler c env jp req).snd) := by
  refine ⟨?_, ?_, ?_, ?_, ?_⟩
  · intro c hn
    simp [host, envOr, hn]
  · intro c hn
    simp [port, hn]
  · intro c
    show decide (port c = JNum.int 465) = true ↔ port c = JNum.int 465
    exact decide_eq_true_iff
  · intro c hn
    simp [destAddr, hn]
  · intro c env jp req om its h hm hc hb hd hh
    rw [handler_sendPath_snd c env jp req om its h hm hc hb hd hh]
    constructor
    · simp [List.mem_append]
    · simp [List.mem_append]

/-- Witness for C8: defaults on the all-unset configuration, and the
transport and send effects of a concrete successful run. -/
theorem c8_witness :
    host ⟨none, none, none, none, none⟩ = ("smtp.gmail.com").data
    ∧ port ⟨none, none, none, none, none⟩ = JNum.int 587
    ∧ destAddr cfgEx = cfgEx.SMTP_USER
    ∧ Effect.createTransport (host cfgEx) (port cfgEx)
        (port cfgEx == JNum.int 465) cfgEx.SMTP_USER cfgEx.SMTP_PASS
        ∈ (handler cfgEx envEx jpFail reqPostOrder).snd := by
  refine ⟨c8_dispatch_config.1 _ rfl, c8_dispatch_config.2.1 _ rfl,
    c8_dispatch_config.2.2.2.1 cfgEx rfl, ?_⟩
  exact (c8_dispatch_config.2.2.2.2 cfgEx envEx jpFail reqPostOrder
    (JSVal.obj [(keyOrderNumber, JSVal.str (("1001").data))])
    (JSVal.arr
      [JSVal.obj [(keyTitle, JSVal.str (("A").data)),
                  (keyQty, JSVal.num (JNum.int 2)),
                  (keyPrice, JSVal.num (JNum.int 500))]])
    _ rfl rfl rfl rfl rfl).1

/-! Claim C9: non-object item entries. -/

/-- C9: a string, number or boolean entry in `items` does not crash
rendering: its missing `title`/`qty`/`price` coerce to the defaults, it
renders exactly like the empty-object item (an empty title, quantity `1`,
empty price), it contributes `0` to the total, and a document over such
entries renders successfully. -/
theorem c9_lenient_rows :
    (∀ s : List Char, rowOf (JSVal.str s) = rowOf (JSVal.obj []))
    ∧ (∀ n : JNum, rowOf (JSVal.num n) = rowOf (JSVal.obj []))
    ∧ (∀ b : Bool, rowOf (JSVal.bool b) = rowOf (JSVal.obj []))
    ∧ (rowOf (JSVal.obj [])).isOk = true
    ∧ (∀ s : List Char, totStep (JNum.int 0) (JSVal.str s) = Except.ok (JNum.int 0))
    ∧ (∀ n : JNum, totStep (JNum.int 0) (JSVal.num n) = Except.ok (JNum.int 0))
    ∧ (buildHtml (JSVal.obj [])
        (JSVal.arr [JSVal.str (("x").data), JSVal.num (JNum.int 5)])).isOk = true := by
  refine ⟨fun s => rfl, fun n => rfl, fun b => rfl, rfl, fun s => rfl, fun n => rfl, ?_⟩
  decide

/-! Claim C10: the raw-body fallback. -/

/-- C10: a POST request (with credentials) whose framework-parsed body is
the empty object is not served from that body: the raw stream is read and
JSON-parsed, and when the raw stream is empty the parse failure is
answered `500` with the parse error's message. -/
theorem c10_raw_fallback (c : Config) (env : SmtpEnv)
    (jp : List Char → Except (List Char) JSVal) (req : Request)
    (hm : req.method = strPOST) (hc : credMissing c = false)
    (hb : req.body = JSVal.obj []) :
    Effect.readRaw ∈ (handler c env jp req).snd
    ∧ (∀ m : List Char, req.rawBody = [] → jp [] = Except.error m →
        handler c env jp req =
          (⟨500, none, RespBody.err (errOr m)⟩,
           [Effect.readRaw, Effect.logError msgApiError])) := by
  constructor
  · unfold handler
    rw [if_neg (by simp [hm]), if_neg (by simp [hc]),
      if_neg (by rw [hb]; decide)]
    dsimp only
    cases hjp : jp req.rawBody with
    | error m => simp
    | ok b =>
      dsimp only
      cases hd : destructure2 b with
      | error m => simp
      | ok pr =>
        obtain ⟨om, its⟩ := pr
        dsimp only
        cases hh : buildHtml (jsOr om (JSVal.obj [])) (jsOr its (JSVal.arr [])) with
        | error m => simp
        | ok h =>
          dsimp only
          cases env.sendResult <;> simp
  · intro m hraw hjp
    refine handler_parseFail c env jp req m hm hc (by rw [hb]; decide) ?_
    rw [hraw]
    exact hjp

/-- Witness for C10 at a concrete empty-object body and empty raw stream. -/
theorem c10_witness :
    Effect.readRaw ∈ (handler cfgEx envEx jpFail reqPostEmptyBody).snd
    ∧ handler cfgEx envEx jpFail reqPostEmptyBody =
        (⟨500, none, RespBody.err (("Unexpected end of JSON input").data)⟩,
         [Effect.readRaw, Effect.logError msgApiError]) := by
  have H := c10_raw_fallback cfgEx envEx jpFail reqPostEmptyBody rfl rfl rfl
  exact ⟨H.1, H.2 (("Unexpected end of JSON input").data) rfl rfl⟩

end SendEmail
